import Mathlib

/-!
Shallow embedding of the resilience core of `thriving-api-python`
(`src/thriving_api/rate_limiter.py`, `src/thriving_api/base_client.py`,
`src/thriving_api/exceptions.py`).

Modelling conventions:
* Python floats (token balances, rates, wall-clock instants, sleep durations)
  are modelled as rationals (`ℚ`); Python ints as `Nat`/`Int`.
* `time.time()` is modelled by threading an explicit clock: stateful
  operations that read the clock take the current instant (or a clock
  stream plus an index) as an argument.
* Response bodies are modelled as either a JSON object with string-valued
  fields (`Option (List (String × String))`, the result of `response.json()`
  when it decodes to such an object) together with the raw body text, or as
  undecodable (`none`).
* Exceptions are modelled by explicit result values; a Python-level crash
  that is not one of the SDK's own exception classes (`UnboundLocalError`,
  `ValueError` escaping from `int(...)`) is a distinct constructor.
-/

/-- Dictionary lookup on a list of key/value pairs, modelling Python
`dict.get(key)` (first binding wins, `None` when absent). -/
def dictGet (fields : List (String × String)) (key : String) : Option String :=
  (fields.find? (fun kv => kv.1 = key)).map (fun kv => kv.2)

/-- Python `dict.get(key, default)`. -/
def dictGetD (fields : List (String × String)) (key : String) (dflt : String) : String :=
  (dictGet fields key).getD dflt

/-- Trim ASCII whitespace from both ends of a character list (the effect of
Python `str.strip()` as performed by `int(...)`/`float(...)`). -/
def charsTrim (cs : List Char) : List Char :=
  ((cs.dropWhile Char.isWhitespace).reverse.dropWhile Char.isWhitespace).reverse

/-- Value of a list of decimal digit characters. -/
def digitsToNat (cs : List Char) : ℕ :=
  cs.foldl (fun n c => n * 10 + (c.toNat - 48)) 0

/-- Strip one optional leading sign, returning (isNegative, rest). -/
def splitSign (cs : List Char) : Bool × List Char :=
  match cs with
  | '-' :: rest => (true, rest)
  | '+' :: rest => (false, rest)
  | _ => (false, cs)

/-- Model of Python `int(s)` on a string: optional surrounding whitespace,
optional sign, decimal digits.  Returns `none` when `int(s)` would raise
`ValueError`.  (Exotic accepted forms such as digit-group underscores are
treated as malformed; no theorem below depends on them.) -/
def pyIntOfString (s : String) : Option Int :=
  let p := splitSign (charsTrim s.data)
  if p.2 ≠ [] ∧ p.2.all Char.isDigit then
    some (if p.1 then -(digitsToNat p.2 : Int) else (digitsToNat p.2 : Int))
  else none

/-- Model of Python `float(s)` on a string: optional sign, decimal digits
with an optional single fractional part.  Returns `none` when `float(s)`
would raise `ValueError`.  (Exponent notation and a bare trailing dot are
treated as malformed; no theorem below depends on them.) -/
def pyFloatOfString (s : String) : Option ℚ :=
  let p := splitSign (charsTrim s.data)
  match p.2.splitOn '.' with
  | [w] =>
      if w ≠ [] ∧ w.all Char.isDigit then
        some (if p.1 then -(digitsToNat w : ℚ) else (digitsToNat w : ℚ))
      else none
  | [w, f] =>
      if w ≠ [] ∧ w.all Char.isDigit ∧ f ≠ [] ∧ f.all Char.isDigit then
        let q : ℚ := (digitsToNat w : ℚ) + (digitsToNat f : ℚ) / ((10 : ℚ) ^ f.length)
        some (if p.1 then -q else q)
      else none
  | _ => none

/-- Python builtin `min(a, b)` on two numbers (the first argument when
equal).  Written as an `if` so that concrete values reduce in the kernel;
equal to Mathlib's `min` (see `pyMin_eq_min`). -/
def pyMin (a b : ℚ) : ℚ := if a ≤ b then a else b

/-- Python builtin `max(a, b)` on two numbers (the first argument when
equal); equal to Mathlib's `max` (see `pyMax_eq_max`). -/
def pyMax (a b : ℚ) : ℚ := if b ≤ a then a else b

/-- Python truthiness of an optional int (`if x:` is false for `None` and `0`). -/
def optIntTruthy : Option Int → Bool
  | none => false
  | some n => n ≠ 0

/-- `rate_limiter.py` lines 25-33: the token-bucket state.  The constructor
takes `capacity: int` and `refill_rate: float` and sets
`tokens = capacity`, `last_refill = time.time()`. -/
structure TokenBucket where
  capacity : ℚ
  tokens : ℚ
  refill_rate : ℚ
  last_refill : ℚ
  deriving DecidableEq

/-- `TokenBucket.__init__` with creation instant `t0` (the `time.time()`
value read at construction). -/
def TokenBucket.init (capacity : ℕ) (refill_rate : ℚ) (t0 : ℚ) : TokenBucket :=
  { capacity := (capacity : ℚ)
    tokens := (capacity : ℚ)
    refill_rate := refill_rate
    last_refill := t0 }

/-- `rate_limiter.py` lines 35-47, `TokenBucket.consume(tokens=1)` with the
`time.time()` value `now` passed explicitly.  Returns the Python return
value together with the updated bucket. -/
def TokenBucket.consume (b : TokenBucket) (now : ℚ) (n : ℕ) : Bool × TokenBucket :=
  let elapsed := now - b.last_refill
  let refilled := pyMin b.capacity (b.tokens + elapsed * b.refill_rate)
  if (n : ℚ) ≤ refilled then
    (true, { b with tokens := refilled - (n : ℚ), last_refill := now })
  else
    (false, { b with tokens := refilled, last_refill := now })

/-- `rate_limiter.py` lines 49-55, `TokenBucket.wait_time(tokens=1)`:
reads only the current balance, never mutates. -/
def TokenBucket.wait_time (b : TokenBucket) (n : ℕ) : ℚ :=
  if (n : ℚ) ≤ b.tokens then 0
  else ((n : ℚ) - b.tokens) / b.refill_rate

/-- `rate_limiter.py` lines 15-22, `RateLimitInfo`. -/
structure RateLimitInfo where
  requests_per_second : ℚ
  burst_limit : ℕ
  remaining_requests : Option Int
  reset_time : Option ℚ
  retry_after : Option Int
  deriving DecidableEq

/-- `rate_limiter.py` lines 58-82, `RateLimiter` state. -/
structure RateLimiter where
  adaptive : Bool
  rate_limit_info : RateLimitInfo
  token_bucket : TokenBucket
  recent_requests : List ℚ
  consecutive_rate_limits : ℕ
  deriving DecidableEq

/-- `RateLimiter.__init__(requests_per_second, burst_limit, adaptive)` with
creation instant `t0`. -/
def RateLimiter.init (requests_per_second burst_limit : ℕ) (adaptive : Bool)
    (t0 : ℚ) : RateLimiter :=
  { adaptive := adaptive
    rate_limit_info :=
      { requests_per_second := (requests_per_second : ℚ)
        burst_limit := burst_limit
        remaining_requests := none
        reset_time := none
        retry_after := none }
    token_bucket := TokenBucket.init burst_limit (requests_per_second : ℚ) t0
    recent_requests := []
    consecutive_rate_limits := 0 }

/-- `rate_limiter.py` lines 107-134, `RateLimiter.update_from_response(headers)`:
returns immediately when not adaptive; otherwise best-effort parses the three
headers, silently ignoring malformed values (the `try/except ValueError: pass`
blocks). -/
def RateLimiter.update_from_response (s : RateLimiter)
    (headers : List (String × String)) : RateLimiter :=
  if s.adaptive = false then s
  else
    let remaining := dictGet headers "x-ratelimit-remaining"
    let reset_time := dictGet headers "x-ratelimit-reset"
    let retry_after := dictGet headers "retry-after"
    let info1 :=
      match remaining with
      | none => s.rate_limit_info
      | some v =>
          match pyIntOfString v with
          | some n => { s.rate_limit_info with remaining_requests := some n }
          | none => s.rate_limit_info
    let info2 :=
      match reset_time with
      | none => info1
      | some v =>
          match pyFloatOfString v with
          | some q => { info1 with reset_time := some q }
          | none => info1
    let info3 :=
      match retry_after with
      | none => info2
      | some v =>
          match pyIntOfString v with
          | some n => { info2 with retry_after := some n }
          | none => info2
    { s with rate_limit_info := info3 }

/-- `rate_limiter.py` lines 136-157, `RateLimiter.handle_rate_limit_response
(retry_after=None)`: increments the consecutive-throttle counter, computes the
wait (hint, else stored hint, else `min(60, 2 ** count)`), and when adaptive
with count > 1 recomputes the bucket rate as
`max(1, requests_per_second * 0.8 ** count)`.  Returns (wait, new state). -/
def RateLimiter.handle_rate_limit_response (s : RateLimiter)
    (retry_after : Option Int) : ℚ × RateLimiter :=
  let c := s.consecutive_rate_limits + 1
  let wait : ℚ :=
    if optIntTruthy retry_after then ((retry_after.getD 0 : Int) : ℚ)
    else if optIntTruthy s.rate_limit_info.retry_after then
      ((s.rate_limit_info.retry_after.getD 0 : Int) : ℚ)
    else pyMin 60 ((2 : ℚ) ^ c)
  let bucket :=
    if s.adaptive = true ∧ 1 < c then
      let reduction_factor := ((4 : ℚ) / 5) ^ c
      let new_rate := pyMax 1 (s.rate_limit_info.requests_per_second * reduction_factor)
      { s.token_bucket with refill_rate := new_rate }
    else s.token_bucket
  (wait, { s with consecutive_rate_limits := c, token_bucket := bucket })

/-- `rate_limiter.py` lines 159-165, `RateLimiter.reset_rate_limit_tracking()`. -/
def RateLimiter.reset_rate_limit_tracking (s : RateLimiter) : RateLimiter :=
  if 0 < s.consecutive_rate_limits then
    { s with
      consecutive_rate_limits := 0
      token_bucket :=
        { s.token_bucket with refill_rate := s.rate_limit_info.requests_per_second } }
  else s

/-- `rate_limiter.py` lines 84-105, `RateLimiter.acquire()` with the clock
threaded explicitly: `clock` is the stream of `time.time()` values and `i`
the index of the next one.  Returns the updated limiter, the next clock
index, and the list of `asyncio.sleep` durations performed. -/
def RateLimiter.acquire (s : RateLimiter) (clock : ℕ → ℚ) (i : ℕ) :
    RateLimiter × ℕ × List ℚ :=
  let r1 := s.token_bucket.consume (clock i) 1
  let afterBucket : TokenBucket × ℕ × List ℚ :=
    if r1.1 = true then (r1.2, i + 1, [])
    else
      let wt := r1.2.wait_time 1
      if 0 < wt then
        let r2 := r1.2.consume (clock (i + 1)) 1
        if r2.1 = true then (r2.2, i + 2, [wt])
        else (r2.2, i + 2, [wt, 1/10])
      else (r1.2, i + 1, [])
  let b := afterBucket.1
  let j := afterBucket.2.1
  let sleeps := afterBucket.2.2
  let now := clock j
  let recent := (s.recent_requests ++ [now]).filter (fun t => now - t < 60)
  ({ s with token_bucket := b, recent_requests := recent }, j + 1, sleeps)

/-- An HTTP response as seen by the client (`httpx.Response`): status code,
the result of `response.json()` when it decodes to a string-valued JSON
object (else `none`), the raw body text, and the (lower-cased) headers. -/
structure Response where
  status : ℕ
  jsonBody : Option (List (String × String))
  text : String
  headers : List (String × String)
  deriving DecidableEq

/-- `response.is_success` in httpx: status in 200..299. -/
def Response.is_success (r : Response) : Bool :=
  200 ≤ r.status ∧ r.status < 300

/-- The exception classes of `exceptions.py` raised by
`_handle_response_error`, identified by class. `generic` is the base
`ThrivingAPIError`. -/
inductive ErrKind where
  | authentication
  | quotaExceeded
  | notFound
  | validation
  | rateLimit
  | server
  | generic
  deriving DecidableEq

/-- A raised SDK exception (`exceptions.py` lines 11-101): class, `message`,
`status_code`, `retry_after` (only ever set by `RateLimitError`), and
`request_id`. -/
structure ApiError where
  kind : ErrKind
  message : String
  status_code : Option Int
  retry_after : Option Int
  request_id : Option String
  deriving DecidableEq

/-- Everything the body of the retry loop's `try:` can raise when the
transport returned a response: one of the SDK's own exception classes, the
`UnboundLocalError` from `_handle_response_error` referencing `error_data`
when `response.json()` failed, or a `ValueError` escaping from
`int(retry_after)`. -/
inductive Raised where
  | api (e : ApiError)
  | unboundLocal
  | valueError
  deriving DecidableEq

/-- `base_client.py` lines 124-125 and 183-184:
`int(retry_after) if retry_after else None` applied to the value of the
`retry-after` header; the `int(...)` call can raise `ValueError`. -/
def parseRetryAfterHeader (h : Option String) : Except Unit (Option Int) :=
  match h with
  | none => Except.ok none
  | some v =>
      if v = "" then Except.ok none
      else
        match pyIntOfString v with
        | some n => Except.ok (some n)
        | none => Except.error ()

/-- `base_client.py` lines 101-140, `_handle_response_error(response)`.
The function always raises; the returned `Raised` is the exception.

Faithful details: when `response.json()` fails, `error_message` is computed
from `response.text` but every `raise` then references the unassigned local
`error_data` (keyword argument `response_data=error_data`), so the actual
exception is `UnboundLocalError`; in the 429 branch `int(retry_after)` runs
before that reference, so a present, nonempty, non-numeric `retry-after`
header raises `ValueError` first. -/
def handleResponseError (r : Response) : Raised :=
  let errorData := r.jsonBody
  let errorMessage :=
    match errorData with
    | some fields => dictGetD fields "error" (dictGetD fields "message" "Unknown error")
    | none => if r.text ≠ "" then r.text else "HTTP " ++ toString r.status ++ " error"
  let requestId := dictGet r.headers "x-request-id"
  let raiseApi : ErrKind → Option Int → Option Int → Raised := fun k sc ra =>
    match errorData with
    | some _ => Raised.api ⟨k, errorMessage, sc, ra, requestId⟩
    | none => Raised.unboundLocal
  if r.status = 401 then raiseApi ErrKind.authentication (some 401) none
  else if r.status = 402 then raiseApi ErrKind.quotaExceeded (some 402) none
  else if r.status = 404 then raiseApi ErrKind.notFound (some 404) none
  else if r.status = 400 then raiseApi ErrKind.validation (some 400) none
  else if r.status = 429 then
    match parseRetryAfterHeader (dictGet r.headers "retry-after") with
    | Except.error _ => Raised.valueError
    | Except.ok ra => raiseApi ErrKind.rateLimit (some 429) ra
  else if 500 ≤ r.status ∧ r.status < 600 then
    raiseApi ErrKind.server (some (r.status : Int)) none
  else raiseApi ErrKind.generic (some (r.status : Int)) none

/-- `base_client.py` lines 80-86: the `self.stats` counter set. -/
structure Stats where
  total_requests : ℕ
  successful_requests : ℕ
  failed_requests : ℕ
  rate_limited_requests : ℕ
  retried_requests : ℕ
  deriving DecidableEq

/-- All-zero initial statistics. -/
def Stats.init : Stats :=
  { total_requests := 0, successful_requests := 0, failed_requests := 0
    rate_limited_requests := 0, retried_requests := 0 }

/-- Result of one transport invocation (`self._client.request(...)`): a
response, or a connection-level failure (`httpx.ConnectError` /
`httpx.TimeoutException`, both handled by the same `except` arm). -/
inductive TransportResult where
  | ok (r : Response)
  | connectionFailure (msg : String)
  deriving DecidableEq

/-- What `_make_request_with_retries` can raise to its caller. -/
inductive RunError where
  | api (e : ApiError)
  | connection (message : String)
  | unexpected (inner : Raised)
  | allFailed
  deriving DecidableEq

/-- Mutable state threaded through the retry loop of
`_make_request_with_retries`: the stats counters, the optional rate limiter,
the next clock index, and logs of the `asyncio.sleep` calls performed —
`acquireSleeps` are the sleeps inside `RateLimiter.acquire`, `backoffSleeps`
the sleeps of the loop itself (lines 188, 199, 215, 227).  `lastExc` is the
`last_exception` local. -/
structure ExecState where
  stats : Stats
  rl : Option RateLimiter
  tIdx : ℕ
  acquireSleeps : List ℚ
  backoffSleeps : List ℚ
  lastExc : Option RunError
  deriving DecidableEq

/-- Initial executor state. -/
def ExecState.init (rl : Option RateLimiter) : ExecState :=
  { stats := Stats.init, rl := rl, tIdx := 0
    acquireSleeps := [], backoffSleeps := [], lastExc := none }

/-- Outcome of one iteration of the retry loop: return the response, raise
to the caller, or proceed to the next iteration (which, on the last
iteration, means falling through to the code after the loop). -/
inductive AttemptOutcome where
  | success (r : Response) (s : ExecState)
  | raised (e : RunError) (s : ExecState)
  | next (s : ExecState)
  deriving DecidableEq

/-- `base_client.py` lines 223-228: the `except Exception` arm — wrap the
exception as `ThrivingAPIError(f"Unexpected error: {str(e)}")` (modelled
structurally as `RunError.unexpected e`; the wrapper's `status_code` is
`None`), store it in `last_exception`, back off and continue when attempts
remain. -/
def exceptGeneric (e : Raised) (maxRetries attempt : ℕ) (st : ExecState) :
    AttemptOutcome :=
  let st1 := { st with lastExc := some (RunError.unexpected e) }
  if attempt < maxRetries then
    AttemptOutcome.next
      { st1 with backoffSleeps := st1.backoffSleeps ++ [pyMin 60 ((2 : ℚ) ^ attempt)] }
  else AttemptOutcome.next st1

/-- `base_client.py` lines 218-228: dispatch of an exception raised inside
the `try:` body.  `RateLimitError`, `AuthenticationError`, `ValidationError`
and `QuotaExceededError` are re-raised after `failed_requests += 1`
(lines 218-221); everything else — including the `NotFoundError`,
`ServerError` and base `ThrivingAPIError` that `_handle_response_error`
itself raises, and the `UnboundLocalError`/`ValueError` crashes — falls to
the `except Exception` arm.  `noRetryClass` is membership in the tuple of
exception classes at line 218. -/
def noRetryClass : ErrKind → Bool
  | ErrKind.rateLimit => true
  | ErrKind.authentication => true
  | ErrKind.validation => true
  | ErrKind.quotaExceeded => true
  | _ => false

/-- Exception dispatch of the retry loop; see `noRetryClass`. -/
def dispatchRaised (e : Raised) (maxRetries attempt : ℕ) (st : ExecState) :
    AttemptOutcome :=
  match e with
  | Raised.api err =>
      if noRetryClass err.kind = true then
        AttemptOutcome.raised (RunError.api err)
          { st with stats := { st.stats with
              failed_requests := st.stats.failed_requests + 1 } }
      else exceptGeneric e maxRetries attempt st
  | _ => exceptGeneric e maxRetries attempt st

/-- `base_client.py` lines 154-228: the body of one iteration of
`for attempt in range(self.max_retries + 1)`, given the result `tr` of the
transport call for this attempt. -/
def attemptBody (maxRetries : ℕ) (clock : ℕ → ℚ) (attempt : ℕ)
    (tr : TransportResult) (st : ExecState) : AttemptOutcome :=
  -- lines 156-158: rate limiting
  let st1 :=
    match st.rl with
    | some l =>
        let a := l.acquire clock st.tIdx
        { st with rl := some a.1, tIdx := a.2.1
                  acquireSleeps := st.acquireSleeps ++ a.2.2 }
    | none => st
  -- lines 160-163: stats update
  let st2 := { st1 with stats := { st1.stats with
      total_requests := st1.stats.total_requests + 1
      retried_requests := st1.stats.retried_requests
        + (if 0 < attempt then 1 else 0) } }
  match tr with
  | TransportResult.connectionFailure msg =>
      -- lines 211-216: wrap as APIConnectionError, back off when attempts remain
      let st3 := { st2 with
        lastExc := some (RunError.connection ("Connection error: " ++ msg)) }
      if attempt < maxRetries then
        AttemptOutcome.next
          { st3 with backoffSleeps := st3.backoffSleeps ++ [pyMin 60 ((2 : ℚ) ^ attempt)] }
      else AttemptOutcome.next st3
  | TransportResult.ok resp =>
      -- lines 174-176: update rate limiter from response headers
      let st3 :=
        match st2.rl with
        | some l => { st2 with rl := some (l.update_from_response resp.headers) }
        | none => st2
      -- lines 178-192: handle rate limiting
      if resp.status = 429 then
        let st4 := { st3 with stats := { st3.stats with
            rate_limited_requests := st3.stats.rate_limited_requests + 1 } }
        match st4.rl with
        | some l =>
            match parseRetryAfterHeader (dictGet resp.headers "retry-after") with
            | Except.error _ => dispatchRaised Raised.valueError maxRetries attempt st4
            | Except.ok ra =>
                let h := l.handle_rate_limit_response ra
                let st5 := { st4 with rl := some h.2 }
                if attempt < maxRetries then
                  AttemptOutcome.next
                    { st5 with backoffSleeps := st5.backoffSleeps ++ [h.1] }
                else dispatchRaised (handleResponseError resp) maxRetries attempt st5
        | none => dispatchRaised (handleResponseError resp) maxRetries attempt st4
      -- lines 194-202: handle other HTTP errors.  (In the source this is a
      -- second `if`, not an `elif`; the 429 branch above always raises or
      -- continues, so it never falls through to it, and the `else` here is
      -- behaviourally identical.)
      else if resp.is_success = false then
        if 500 ≤ resp.status ∧ resp.status < 600 ∧ attempt < maxRetries then
          AttemptOutcome.next
            { st3 with backoffSleeps := st3.backoffSleeps ++ [pyMin 60 ((2 : ℚ) ^ attempt)] }
        else dispatchRaised (handleResponseError resp) maxRetries attempt st3
      -- lines 204-209: success
      else
        let st4 :=
          match st3.rl with
          | some l => { st3 with rl := some l.reset_rate_limit_tracking }
          | none => st3
        AttemptOutcome.success resp
          { st4 with stats := { st4.stats with
              successful_requests := st4.stats.successful_requests + 1 } }

deriving instance DecidableEq for Except

/-- Final result of `_make_request_with_retries`: either the returned
response or the raised error, together with the final executor state. -/
structure RunResult where
  outcome : Except RunError Response
  final : ExecState
  deriving DecidableEq

/-- The retry loop `for attempt in range(max_retries + 1)` over the list of
remaining attempt indices, followed by the code after the loop
(`base_client.py` lines 230-235): `failed_requests += 1` and raise
`last_exception` when set, else `ThrivingAPIError("All retry attempts failed")`. -/
def runLoop (maxRetries : ℕ) (clock : ℕ → ℚ) (transport : ℕ → TransportResult) :
    List ℕ → ExecState → RunResult
  | [], st =>
      { outcome := Except.error (st.lastExc.getD RunError.allFailed)
        final := { st with stats := { st.stats with
            failed_requests := st.stats.failed_requests + 1 } } }
  | attempt :: rest, st =>
      match attemptBody maxRetries clock attempt (transport attempt) st with
      | AttemptOutcome.success r st1 => { outcome := Except.ok r, final := st1 }
      | AttemptOutcome.raised e st1 => { outcome := Except.error e, final := st1 }
      | AttemptOutcome.next st1 => runLoop maxRetries clock transport rest st1

/-- `base_client.py` lines 142-235, `_make_request_with_retries`, for a
client with `max_retries = maxRetries` and rate limiter `rl` (present iff
`enable_rate_limiting`), against transport `transport` (the response or
connection failure produced on each attempt) and clock stream `clock`. -/
def makeRequestWithRetries (maxRetries : ℕ) (rl : Option RateLimiter)
    (clock : ℕ → ℚ) (transport : ℕ → TransportResult) : RunResult :=
  runLoop maxRetries clock transport (List.range (maxRetries + 1)) (ExecState.init rl)

/-! ### Operation sequences and reachable states, for the invariant claims -/

/-- One call against a `TokenBucket`: `consume(n)` at instant `now`, or
`wait_time(n)` (which never mutates). -/
inductive BucketOp where
  | consume (now : ℚ) (n : ℕ)
  | waitTime (n : ℕ)
  deriving DecidableEq

/-- State effect of one bucket call. -/
def BucketOp.apply (b : TokenBucket) : BucketOp → TokenBucket
  | BucketOp.consume now n => (b.consume now n).2
  | BucketOp.waitTime _ => b

/-- State after a sequence of bucket calls. -/
def applyBucketOps (b : TokenBucket) (ops : List BucketOp) : TokenBucket :=
  ops.foldl BucketOp.apply b

/-- A call sequence is valid from `b` when wall-clock time never runs
backwards (each `consume`'s `now` is at least the current `last_refill`)
and each consumption request is for at least one token. -/
def ValidBucketOps : TokenBucket → List BucketOp → Prop
  | _, [] => True
  | b, op :: rest =>
      (match op with
       | BucketOp.consume now n => b.last_refill ≤ now ∧ 1 ≤ n
       | BucketOp.waitTime _ => True) ∧ ValidBucketOps (BucketOp.apply b op) rest

/-- `k` consecutive `handle_rate_limit_response` calls with the given
`retry_after` hints, no intervening recovery. -/
def applyPenalties (s : RateLimiter) (hints : List (Option Int)) : RateLimiter :=
  hints.foldl (fun s h => (s.handle_rate_limit_response h).2) s

/-- Limiter states reachable from `RateLimiter.__init__(rps, burst, adaptive)`
through the class's public mutators. -/
inductive RLReachable (rps burst : ℕ) (adaptive : Bool) (t0 : ℚ) : RateLimiter → Prop where
  | init : RLReachable rps burst adaptive t0 (RateLimiter.init rps burst adaptive t0)
  | update {s : RateLimiter} (headers : List (String × String)) :
      RLReachable rps burst adaptive t0 s →
      RLReachable rps burst adaptive t0 (s.update_from_response headers)
  | throttle {s : RateLimiter} (ra : Option Int) :
      RLReachable rps burst adaptive t0 s →
      RLReachable rps burst adaptive t0 (s.handle_rate_limit_response ra).2
  | recover {s : RateLimiter} :
      RLReachable rps burst adaptive t0 s →
      RLReachable rps burst adaptive t0 s.reset_rate_limit_tracking
  | acquireStep {s : RateLimiter} (clock : ℕ → ℚ) (i : ℕ) :
      RLReachable rps burst adaptive t0 s →
      RLReachable rps burst adaptive t0 (s.acquire clock i).1

/-! ### Definitions written from the claim text (for refinement comparison) -/

/-- Written from the words of claim C4 (not from the source): the claimed
error-message chain — body `error` field, else body `message` field, else
the raw body text, else `"HTTP <code> error"`. -/
def claimC4Message (r : Response) : String :=
  let fallback := if r.text ≠ "" then r.text else "HTTP " ++ toString r.status ++ " error"
  match r.jsonBody with
  | some fields =>
      match dictGet fields "error" with
      | some m => m
      | none =>
          match dictGet fields "message" with
          | some m => m
          | none => fallback
  | none => fallback

/-- Written from the words of claim C4: the claimed status-code → error-kind
mapping (`401→Authentication`, `402→QuotaExceeded`, `404→NotFound`,
`400→Validation`, `429→RateLimited`, `500-599→Server`, else `Generic`). -/
def claimC4Kind (status : ℕ) : ErrKind :=
  if status = 401 then ErrKind.authentication
  else if status = 402 then ErrKind.quotaExceeded
  else if status = 404 then ErrKind.notFound
  else if status = 400 then ErrKind.validation
  else if status = 429 then ErrKind.rateLimit
  else if 500 ≤ status ∧ status < 600 then ErrKind.server
  else ErrKind.generic

/-- The amended message chain for claim C4, as the code actually computes it
when the body is a JSON object: `error` field, else `message` field, else
`"Unknown error"`. -/
def claimC4AmendedMessage (fields : List (String × String)) : String :=
  match dictGet fields "error" with
  | some m => m
  | none =>
      match dictGet fields "message" with
      | some m => m
      | none => "Unknown error"

/-! ### Concrete fixtures for evaluated runs -/

/-- A constant clock: every `time.time()` call returns 0. -/
def clockZero : ℕ → ℚ := fun _ => 0

/-- The default rate limiter of `BaseClient.__init__`:
`requests_per_second=30`, `burst_limit=60`, `adaptive=True`. -/
def rlDefault : RateLimiter := RateLimiter.init 30 60 true 0

/-- A 500 response with JSON body `\x7b"error": "boom"\x7d`. -/
def resp500boom : Response :=
  { status := 500, jsonBody := some [("error", "boom")], text := "boom"
    headers := [] }

/-- A 404 response with JSON body `\x7b"error": "missing"\x7d`. -/
def resp404missing : Response :=
  { status := 404, jsonBody := some [("error", "missing")], text := "missing"
    headers := [] }

/-- A 401 response whose body `"Unauthorized"` is not JSON. -/
def resp401raw : Response :=
  { status := 401, jsonBody := none, text := "Unauthorized", headers := [] }

/-- A 503 response with a JSON `message` body and an `x-request-id` header. -/
def respC4Wit : Response :=
  { status := 503, jsonBody := some [("message", "down")], text := "x"
    headers := [("x-request-id", "r1")] }

/-- A 429 response carrying header `retry-after: 5`. -/
def resp429five : Response :=
  { status := 429, jsonBody := some [("error", "slow down")], text := "x"
    headers := [("retry-after", "5")] }

/-! ## Theorems -/

theorem pyMin_eq_min (a b : ℚ) : pyMin a b = min a b := (min_def a b).symm

theorem pyMax_eq_max (a b : ℚ) : pyMax a b = max a b := by
  unfold pyMax
  rcases le_total a b with h | h
  · rcases eq_or_lt_of_le h with rfl | hlt
    · simp
    · rw [if_neg (not_le.mpr hlt), max_eq_right h]
  · rw [if_pos h, max_eq_left h]

/-- C6: for every `TokenBucket` state and every `n ≥ 1`, `consume(n)` first
refills to `min(capacity, tokens + elapsed * refill_rate)` with
`elapsed = now - last_refill`, sets `last_refill` to `now`, then deducts `n`
and returns `True` exactly when the refilled balance is at least `n`, and
otherwise returns `False` keeping the refilled, undeducted balance;
`capacity` and `refill_rate` are untouched. -/
theorem thm_c6_consume_contract (b : TokenBucket) (now : ℚ) (n : ℕ) (hn : 1 ≤ n) :
    ((b.consume now n).2.last_refill = now)
    ∧ ((b.consume now n).1 = true ↔
        (n : ℚ) ≤ min b.capacity (b.tokens + (now - b.last_refill) * b.refill_rate))
    ∧ ((b.consume now n).1 = true →
        (b.consume now n).2.tokens
          = min b.capacity (b.tokens + (now - b.last_refill) * b.refill_rate) - (n : ℚ))
    ∧ ((b.consume now n).1 = false →
        (b.consume now n).2.tokens
          = min b.capacity (b.tokens + (now - b.last_refill) * b.refill_rate))
    ∧ (b.consume now n).2.capacity = b.capacity
    ∧ (b.consume now n).2.refill_rate = b.refill_rate := by
  unfold TokenBucket.consume
  simp only [pyMin_eq_min]
  split_ifs with h
  · simp [h]
  · simp [h]

/-- Witness for C6 at a concrete input: bucket with capacity 10, rate 1,
created at instant 0, consuming 1 token at instant 2. -/
theorem wit_c6_consume_contract :
    (1 ≤ 1)
    ∧ (((TokenBucket.init 10 1 0).consume 2 1).2.last_refill = 2
      ∧ (((TokenBucket.init 10 1 0).consume 2 1).1 = true ↔
          ((1 : ℕ) : ℚ) ≤ min (TokenBucket.init 10 1 0).capacity
            ((TokenBucket.init 10 1 0).tokens
              + (2 - (TokenBucket.init 10 1 0).last_refill)
                * (TokenBucket.init 10 1 0).refill_rate))
      ∧ (((TokenBucket.init 10 1 0).consume 2 1).1 = true →
          ((TokenBucket.init 10 1 0).consume 2 1).2.tokens
            = min (TokenBucket.init 10 1 0).capacity
                ((TokenBucket.init 10 1 0).tokens
                  + (2 - (TokenBucket.init 10 1 0).last_refill)
                    * (TokenBucket.init 10 1 0).refill_rate) - ((1 : ℕ) : ℚ))
      ∧ (((TokenBucket.init 10 1 0).consume 2 1).1 = false →
          ((TokenBucket.init 10 1 0).consume 2 1).2.tokens
            = min (TokenBucket.init 10 1 0).capacity
                ((TokenBucket.init 10 1 0).tokens
                  + (2 - (TokenBucket.init 10 1 0).last_refill)
                    * (TokenBucket.init 10 1 0).refill_rate))
      ∧ ((TokenBucket.init 10 1 0).consume 2 1).2.capacity
          = (TokenBucket.init 10 1 0).capacity
      ∧ ((TokenBucket.init 10 1 0).consume 2 1).2.refill_rate
          = (TokenBucket.init 10 1 0).refill_rate) :=
  ⟨le_refl 1, thm_c6_consume_contract (TokenBucket.init 10 1 0) 2 1 (le_refl 1)⟩

/-- C10: `update_from_response` on a limiter with `adaptive = False` returns
normally (the model is a total function) and leaves the entire limiter state
— every `RateLimitInfo` field included — unchanged, whatever the headers. -/
theorem thm_c10_nonadaptive_frame (s : RateLimiter)
    (headers : List (String × String)) (h : s.adaptive = false) :
    s.update_from_response headers = s := by
  unfold RateLimiter.update_from_response
  rw [if_pos h]

/-- Witness for C10: a non-adaptive limiter and malformed header values. -/
theorem wit_c10_nonadaptive_frame :
    (RateLimiter.init 30 60 false 0).adaptive = false
    ∧ (RateLimiter.init 30 60 false 0).update_from_response
        [("x-ratelimit-remaining", "abc"), ("x-ratelimit-reset", ""),
         ("retry-after", "-")]
      = RateLimiter.init 30 60 false 0 :=
  ⟨rfl, thm_c10_nonadaptive_frame (RateLimiter.init 30 60 false 0)
    [("x-ratelimit-remaining", "abc"), ("x-ratelimit-reset", ""),
     ("retry-after", "-")] rfl⟩

theorem update_from_response_rps (s : RateLimiter) (headers : List (String × String)) :
    (s.update_from_response headers).rate_limit_info.requests_per_second
      = s.rate_limit_info.requests_per_second := by
  unfold RateLimiter.update_from_response
  split
  · rfl
  · dsimp only
    repeat' split
    all_goals rfl

theorem handle_rate_limit_response_rps (s : RateLimiter) (ra : Option Int) :
    (s.handle_rate_limit_response ra).2.rate_limit_info.requests_per_second
      = s.rate_limit_info.requests_per_second := rfl

theorem reset_rate_limit_tracking_rps (s : RateLimiter) :
    s.reset_rate_limit_tracking.rate_limit_info.requests_per_second
      = s.rate_limit_info.requests_per_second := by
  unfold RateLimiter.reset_rate_limit_tracking
  split <;> rfl

theorem acquire_rps (s : RateLimiter) (clock : ℕ → ℚ) (i : ℕ) :
    (s.acquire clock i).1.rate_limit_info.requests_per_second
      = s.rate_limit_info.requests_per_second := rfl

/-- Every state reachable through the limiter's public mutators keeps
`rate_limit_info.requests_per_second` at the configured baseline. -/
theorem rlreachable_rps {rps burst : ℕ} {adaptive : Bool} {t0 : ℚ}
    {s : RateLimiter} (h : RLReachable rps burst adaptive t0 s) :
    s.rate_limit_info.requests_per_second = (rps : ℚ) := by
  induction h with
  | init => rfl
  | update headers _ ih => rw [update_from_response_rps]; exact ih
  | throttle ra _ ih => rw [handle_rate_limit_response_rps]; exact ih
  | recover _ ih => rw [reset_rate_limit_tracking_rps]; exact ih
  | acquireStep clock i _ ih => rw [acquire_rps]; exact ih

/-- C8: on any reachable limiter state with `consecutive_rate_limits > 0`
(any number of prior penalties, any current bucket rate), one
`reset_rate_limit_tracking` call zeroes the counter and sets the bucket's
`refill_rate` to the originally configured `requests_per_second`, in a
single step. -/
theorem thm_c8_recover_restores_baseline (rps burst : ℕ) (adaptive : Bool)
    (t0 : ℚ) (s : RateLimiter) (hreach : RLReachable rps burst adaptive t0 s)
    (hpos : 0 < s.consecutive_rate_limits) :
    s.reset_rate_limit_tracking.consecutive_rate_limits = 0
    ∧ s.reset_rate_limit_tracking.token_bucket.refill_rate = (rps : ℚ) := by
  unfold RateLimiter.reset_rate_limit_tracking
  rw [if_pos hpos]
  exact ⟨rfl, rlreachable_rps hreach⟩

/-- Witness for C8: the default limiter after two penalties (counter 2,
bucket rate reduced to 19.2) recovers to counter 0, rate 30. -/
theorem wit_c8_recover_restores_baseline :
    0 < (applyPenalties rlDefault [none, none]).consecutive_rate_limits
    ∧ ((applyPenalties rlDefault [none, none]).reset_rate_limit_tracking.consecutive_rate_limits = 0
      ∧ (applyPenalties rlDefault [none, none]).reset_rate_limit_tracking.token_bucket.refill_rate
          = ((30 : ℕ) : ℚ)) := by
  refine ⟨by norm_num [applyPenalties, rlDefault, RateLimiter.init,
    RateLimiter.handle_rate_limit_response, TokenBucket.init, optIntTruthy], ?_⟩
  exact thm_c8_recover_restores_baseline 30 60 true 0 _
    (RLReachable.throttle none (RLReachable.throttle none RLReachable.init))
    (by norm_num [applyPenalties, rlDefault, RateLimiter.init,
      RateLimiter.handle_rate_limit_response, TokenBucket.init, optIntTruthy])

theorem handle_rate_limit_fields (s : RateLimiter) (h : Option Int) :
    (s.handle_rate_limit_response h).2.adaptive = s.adaptive
    ∧ (s.handle_rate_limit_response h).2.rate_limit_info = s.rate_limit_info
    ∧ (s.handle_rate_limit_response h).2.consecutive_rate_limits
        = s.consecutive_rate_limits + 1
    ∧ (s.handle_rate_limit_response h).2.token_bucket.refill_rate
        = (if s.adaptive = true ∧ 1 < s.consecutive_rate_limits + 1 then
            pyMax 1 (s.rate_limit_info.requests_per_second
              * ((4 : ℚ) / 5) ^ (s.consecutive_rate_limits + 1))
          else s.token_bucket.refill_rate) := by
  unfold RateLimiter.handle_rate_limit_response
  dsimp only
  refine ⟨rfl, rfl, rfl, ?_⟩
  by_cases hc : s.adaptive = true ∧ 1 < s.consecutive_rate_limits + 1
  · rw [if_pos hc, if_pos hc]
  · rw [if_neg hc, if_neg hc]

theorem applyPenalties_spec (hints : List (Option Int)) :
    ∀ s : RateLimiter, s.adaptive = true →
      (applyPenalties s hints).adaptive = true
      ∧ (applyPenalties s hints).rate_limit_info = s.rate_limit_info
      ∧ (applyPenalties s hints).consecutive_rate_limits
          = s.consecutive_rate_limits + hints.length
      ∧ (1 ≤ hints.length → 2 ≤ s.consecutive_rate_limits + hints.length →
          (applyPenalties s hints).token_bucket.refill_rate
            = pyMax 1 (s.rate_limit_info.requests_per_second
                * ((4 : ℚ) / 5) ^ (s.consecutive_rate_limits + hints.length))) := by
  induction hints with
  | nil =>
      intro s hA
      refine ⟨hA, rfl, by simp [applyPenalties], ?_⟩
      intro h1
      exact absurd h1 (by simp)
  | cons h rest ih =>
      intro s hA
      have hstep : applyPenalties s (h :: rest)
          = applyPenalties (s.handle_rate_limit_response h).2 rest := rfl
      have hf := handle_rate_limit_fields s h
      have hA1 : (s.handle_rate_limit_response h).2.adaptive = true := by
        rw [hf.1]; exact hA
      obtain ⟨ih1, ih2, ih3, ih4⟩ := ih (s.handle_rate_limit_response h).2 hA1
      rw [hstep]
      have hlen : (h :: rest).length = rest.length + 1 := rfl
      refine ⟨ih1, by rw [ih2, hf.2.1], ?_, ?_⟩
      · rw [ih3, hf.2.2.1, hlen]; omega
      · intro _ h2
        rw [hlen] at h2
        rcases Nat.eq_zero_or_pos rest.length with hz | hpos
        · have hnil : rest = [] := List.length_eq_zero.mp hz
        
          subst hnil
          have hcollapse : applyPenalties (s.handle_rate_limit_response h).2 []
              = (s.handle_rate_limit_response h).2 := rfl
          rw [hcollapse, hf.2.2.2, if_pos ⟨hA, by omega⟩, hlen]
          simp
        · have h2a : 2 ≤ (s.handle_rate_limit_response h).2.consecutive_rate_limits
              + rest.length := by
            rw [hf.2.2.1]; omega
          have hr := ih4 hpos h2a
          rw [hr, hf.2.2.1, hf.2.1, hlen]
          have hexp : s.consecutive_rate_limits + 1 + rest.length
              = s.consecutive_rate_limits + (rest.length + 1) := by omega
          rw [hexp]

/-- Counterexample to C7 as stated: on the default adaptive limiter
(baseline 30/s), a single `handle_rate_limit_response` call (k = 1) leaves
the bucket rate at 30, which is not ≤ 30 × 0.8¹ = 24 — the decay is only
applied when the consecutive count exceeds 1. -/
theorem cex_c7_single_throttle_rate_unchanged :
    (applyPenalties rlDefault [none]).token_bucket.refill_rate = 30
    ∧ ¬((applyPenalties rlDefault [none]).token_bucket.refill_rate
          ≤ rlDefault.rate_limit_info.requests_per_second * ((4 : ℚ) / 5) ^ (1 : ℕ)) := by
  constructor <;>
    norm_num [applyPenalties, rlDefault, RateLimiter.init,
      RateLimiter.handle_rate_limit_response, TokenBucket.init, optIntTruthy]

/-- C7 amended: starting from an adaptive limiter with no pending throttle
streak, after `k ≥ 2` consecutive `handle_rate_limit_response` calls (any
retry-after hints) and no intervening recovery, the bucket's refill rate
equals `max(1, baseline × 0.8^k)` — hence it is at most `baseline × 0.8^k`
whenever that quantity is at least 1, and it is never below 1 token/s; after
a single call (k = 1) the rate is unchanged. -/
theorem thm_c7_decay_amended (s : RateLimiter) (hints : List (Option Int))
    (hA : s.adaptive = true) (h0 : s.consecutive_rate_limits = 0)
    (h2 : 2 ≤ hints.length) :
    (applyPenalties s hints).token_bucket.refill_rate
      = max 1 (s.rate_limit_info.requests_per_second * ((4 : ℚ) / 5) ^ hints.length)
    ∧ 1 ≤ (applyPenalties s hints).token_bucket.refill_rate := by
  obtain ⟨_, _, _, h4⟩ := applyPenalties_spec hints s hA
  have hr := h4 (by omega) (by omega)
  rw [h0] at hr
  simp only [Nat.zero_add] at hr
  rw [hr, pyMax_eq_max]
  exact ⟨rfl, le_max_left 1 _⟩

/-- Witness for C7 amended: default limiter, two penalties — rate becomes
`max(1, 30 × 0.8²) = 19.2`. -/
theorem wit_c7_decay_amended :
    rlDefault.adaptive = true
    ∧ rlDefault.consecutive_rate_limits = 0
    ∧ 2 ≤ ([none, none] : List (Option Int)).length
    ∧ ((applyPenalties rlDefault [none, none]).token_bucket.refill_rate
        = max 1 (rlDefault.rate_limit_info.requests_per_second
            * ((4 : ℚ) / 5) ^ ([none, none] : List (Option Int)).length)
      ∧ 1 ≤ (applyPenalties rlDefault [none, none]).token_bucket.refill_rate) :=
  ⟨rfl, rfl, by simp,
    thm_c7_decay_amended rlDefault [none, none] rfl rfl (by simp)⟩

theorem applyBucketOps_nil (b : TokenBucket) : applyBucketOps b [] = b := rfl

theorem applyBucketOps_cons (b : TokenBucket) (op : BucketOp) (l : List BucketOp) :
    applyBucketOps b (op :: l) = applyBucketOps (BucketOp.apply b op) l := rfl

theorem consume_inv (b : TokenBucket) (now : ℚ) (n : ℕ)
    (h0 : 0 ≤ b.tokens) (h1 : b.tokens ≤ b.capacity) (hr : 0 ≤ b.refill_rate)
    (hle : b.last_refill ≤ now) :
    0 ≤ (b.consume now n).2.tokens
    ∧ (b.consume now n).2.tokens ≤ b.capacity
    ∧ (b.consume now n).2.capacity = b.capacity
    ∧ (b.consume now n).2.refill_rate = b.refill_rate := by
  have hcap0 : 0 ≤ b.capacity := le_trans h0 h1
  have hmono : b.tokens ≤ b.tokens + (now - b.last_refill) * b.refill_rate := by
    have hm : 0 ≤ (now - b.last_refill) * b.refill_rate :=
      mul_nonneg (by linarith) hr
    linarith
  have hrf0 : 0 ≤ pyMin b.capacity (b.tokens + (now - b.last_refill) * b.refill_rate) := by
    rw [pyMin_eq_min]
    exact le_min hcap0 (le_trans h0 hmono)
  have hrfc : pyMin b.capacity (b.tokens + (now - b.last_refill) * b.refill_rate)
      ≤ b.capacity := by
    rw [pyMin_eq_min]; exact min_le_left _ _
  have hn0 : (0 : ℚ) ≤ (n : ℚ) := Nat.cast_nonneg n
  unfold TokenBucket.consume
  dsimp only
  split_ifs with hc
  · dsimp only
    exact ⟨by linarith, by linarith, rfl, rfl⟩
  · dsimp only
    exact ⟨hrf0, hrfc, rfl, rfl⟩

theorem consume_no_decrease (b : TokenBucket) (now : ℚ) (n : ℕ)
    (h1 : b.tokens ≤ b.capacity) (hr : 0 ≤ b.refill_rate)
    (hle : b.last_refill ≤ now) (hfail : (b.consume now n).1 = false) :
    b.tokens ≤ (b.consume now n).2.tokens := by
  have hmono : b.tokens ≤ b.tokens + (now - b.last_refill) * b.refill_rate := by
    have hm : 0 ≤ (now - b.last_refill) * b.refill_rate :=
      mul_nonneg (by linarith) hr
    linarith
  have hge : b.tokens
      ≤ pyMin b.capacity (b.tokens + (now - b.last_refill) * b.refill_rate) := by
    rw [pyMin_eq_min]; exact le_min h1 hmono
  unfold TokenBucket.consume at hfail ⊢
  dsimp only at hfail ⊢
  by_cases hc : (n : ℚ) ≤ pyMin b.capacity (b.tokens + (now - b.last_refill) * b.refill_rate)
  · rw [if_pos hc] at hfail
    exact absurd hfail (by simp)
  · rw [if_neg hc]
    exact hge

theorem validOps_inv (ops : List BucketOp) :
    ∀ b : TokenBucket, 0 ≤ b.tokens → b.tokens ≤ b.capacity → 0 ≤ b.refill_rate →
      ValidBucketOps b ops →
      ∀ i, i ≤ ops.length →
        0 ≤ (applyBucketOps b (ops.take i)).tokens
        ∧ (applyBucketOps b (ops.take i)).tokens ≤ (applyBucketOps b (ops.take i)).capacity
        ∧ (applyBucketOps b (ops.take i)).capacity = b.capacity
        ∧ 0 ≤ (applyBucketOps b (ops.take i)).refill_rate := by
  induction ops with
  | nil =>
      intro b h0 h1 hr _ i hi
      have hz : i = 0 := Nat.le_zero.mp hi
      subst hz
      simp only [List.take_nil, applyBucketOps_nil]
      exact ⟨h0, h1, trivial, hr⟩
  | cons op rest ih =>
      intro b h0 h1 hr hv i hi
      cases i with
      | zero =>
          simp only [List.take_zero, applyBucketOps_nil]
          exact ⟨h0, h1, trivial, hr⟩
      | succ j =>
          rw [List.take_succ_cons, applyBucketOps_cons]
          have hstep : 0 ≤ (BucketOp.apply b op).tokens
              ∧ (BucketOp.apply b op).tokens ≤ (BucketOp.apply b op).capacity
              ∧ (BucketOp.apply b op).capacity = b.capacity
              ∧ 0 ≤ (BucketOp.apply b op).refill_rate := by
            cases op with
            | consume now n =>
                obtain ⟨⟨hle2, hn2⟩, _⟩ := hv
                obtain ⟨hc1, hc2, hc3, hc4⟩ := consume_inv b now n h0 h1 hr hle2
                dsimp only [BucketOp.apply]
                exact ⟨hc1, by rw [hc3]; exact hc2, hc3, by rw [hc4]; exact hr⟩
            | waitTime n =>
                dsimp only [BucketOp.apply]
                exact ⟨h0, h1, rfl, hr⟩
          obtain ⟨hs0, hs1, hs2, hs3⟩ := hstep
          obtain ⟨r0, r1, r2, r3⟩ :=
            ih (BucketOp.apply b op) hs0 hs1 hs3 hv.2 j (Nat.succ_le_succ_iff.mp hi)
          exact ⟨r0, r1, by rw [r2, hs2], r3⟩

theorem validOps_decrease (ops : List BucketOp) :
    ∀ b : TokenBucket, 0 ≤ b.tokens → b.tokens ≤ b.capacity → 0 ≤ b.refill_rate →
      ValidBucketOps b ops →
      ∀ i, (h : i < ops.length) →
        (applyBucketOps b (ops.take (i + 1))).tokens
          < (applyBucketOps b (ops.take i)).tokens →
        ∃ now n, ops.get ⟨i, h⟩ = BucketOp.consume now n
          ∧ ((applyBucketOps b (ops.take i)).consume now n).1 = true := by
  induction ops with
  | nil =>
      intro b _ _ _ _ i h
      exact absurd h (by simp)
  | cons op rest ih =>
      intro b h0 h1 hr hv i h hdec
      cases i with
      | zero =>
          simp only [List.take_succ_cons, List.take_zero, applyBucketOps_cons,
            applyBucketOps_nil] at hdec
          cases op with
          | waitTime n =>
              dsimp only [BucketOp.apply] at hdec
              exact absurd hdec (lt_irrefl _)
          | consume now n =>
              obtain ⟨⟨hle2, _⟩, _⟩ := hv
              refine ⟨now, n, rfl, ?_⟩
              simp only [List.take_zero, applyBucketOps_nil]
              dsimp only [BucketOp.apply] at hdec
              cases hres : (b.consume now n).1 with
              | true => rfl
              | false =>
                  have := consume_no_decrease b now n h1 hr hle2 hres
                  exact absurd hdec (not_lt.mpr this)
      | succ j =>
          simp only [List.take_succ_cons, applyBucketOps_cons] at hdec ⊢
          have hstep : 0 ≤ (BucketOp.apply b op).tokens
              ∧ (BucketOp.apply b op).tokens ≤ (BucketOp.apply b op).capacity
              ∧ 0 ≤ (BucketOp.apply b op).refill_rate := by
            cases op with
            | consume now n =>
                obtain ⟨⟨hle2, _⟩, _⟩ := hv
                obtain ⟨hc1, hc2, hc3, hc4⟩ := consume_inv b now n h0 h1 hr hle2
                dsimp only [BucketOp.apply]
                exact ⟨hc1, by rw [hc3]; exact hc2, by rw [hc4]; exact hr⟩
            | waitTime n =>
                dsimp only [BucketOp.apply]
                exact ⟨h0, h1, hr⟩
          obtain ⟨hs0, hs1, hs3⟩ := hstep
          have hlt : j < rest.length := Nat.succ_lt_succ_iff.mp h
          obtain ⟨now, n, hget, hcons⟩ :=
            ih (BucketOp.apply b op) hs0 hs1 hs3 hv.2 j hlt hdec
          exact ⟨now, n, hget, hcons⟩

/-- C5: for a bucket created with `capacity ≥ 1` and `refill_rate > 0`, and
any valid finite sequence of `consume`/`wait_time` calls (wall clock never
moves backwards, each consume asks for ≥ 1 token), the balance satisfies
`0 ≤ tokens ≤ capacity` after every call, and the balance strictly
decreases across a call only when that call is a `consume` that returns
`True`. -/
theorem thm_c5_bucket_invariant (capacity : ℕ) (rate t0 : ℚ)
    (hcap : 1 ≤ capacity) (hrate : 0 < rate) (ops : List BucketOp)
    (hv : ValidBucketOps (TokenBucket.init capacity rate t0) ops) :
    (∀ i, i ≤ ops.length →
        0 ≤ (applyBucketOps (TokenBucket.init capacity rate t0) (ops.take i)).tokens
        ∧ (applyBucketOps (TokenBucket.init capacity rate t0) (ops.take i)).tokens
            ≤ (capacity : ℚ))
    ∧ (∀ i, (h : i < ops.length) →
        (applyBucketOps (TokenBucket.init capacity rate t0) (ops.take (i + 1))).tokens
          < (applyBucketOps (TokenBucket.init capacity rate t0) (ops.take i)).tokens →
        ∃ now n, ops.get ⟨i, h⟩ = BucketOp.consume now n
          ∧ ((applyBucketOps (TokenBucket.init capacity rate t0) (ops.take i)).consume
              now n).1 = true) := by
  have h0 : 0 ≤ (TokenBucket.init capacity rate t0).tokens := Nat.cast_nonneg capacity
  have h1 : (TokenBucket.init capacity rate t0).tokens
      ≤ (TokenBucket.init capacity rate t0).capacity := le_refl _
  have hr : 0 ≤ (TokenBucket.init capacity rate t0).refill_rate := le_of_lt hrate
  constructor
  · intro i hi
    obtain ⟨r0, r1, r2, _⟩ := validOps_inv ops (TokenBucket.init capacity rate t0) h0 h1 hr hv i hi
    exact ⟨r0, by rw [r2] at r1; exact r1⟩
  · exact validOps_decrease ops (TokenBucket.init capacity rate t0) h0 h1 hr hv

/-- Witness for C5: capacity 2, rate 1, one valid consume at instant 1. -/
theorem wit_c5_bucket_invariant :
    (1 ≤ 2 ∧ (0 : ℚ) < 1
      ∧ ValidBucketOps (TokenBucket.init 2 1 0) [BucketOp.consume 1 1])
    ∧ ((∀ i, i ≤ [BucketOp.consume 1 1].length →
        0 ≤ (applyBucketOps (TokenBucket.init 2 1 0)
              ([BucketOp.consume 1 1].take i)).tokens
        ∧ (applyBucketOps (TokenBucket.init 2 1 0)
              ([BucketOp.consume 1 1].take i)).tokens ≤ ((2 : ℕ) : ℚ))
      ∧ (∀ i, (h : i < [BucketOp.consume 1 1].length) →
          (applyBucketOps (TokenBucket.init 2 1 0)
              ([BucketOp.consume 1 1].take (i + 1))).tokens
            < (applyBucketOps (TokenBucket.init 2 1 0)
                ([BucketOp.consume 1 1].take i)).tokens →
          ∃ now n, [BucketOp.consume 1 1].get ⟨i, h⟩ = BucketOp.consume now n
            ∧ ((applyBucketOps (TokenBucket.init 2 1 0)
                ([BucketOp.consume 1 1].take i)).consume now n).1 = true)) := by
  have hv : ValidBucketOps (TokenBucket.init 2 1 0) [BucketOp.consume 1 1] := by
    unfold ValidBucketOps
    exact ⟨⟨by norm_num [TokenBucket.init], le_refl 1⟩, trivial⟩
  exact ⟨⟨by norm_num, by norm_num, hv⟩,
    thm_c5_bucket_invariant 2 1 0 (by norm_num) (by norm_num) [BucketOp.consume 1 1] hv⟩

/-- Counterexample to C4 as stated: a 401 response whose body is the JSON
object `\x7b\x7d` (no `error` or `message` field, raw text nonempty).  The
claim's message chain demands the raw body text; the code's message is the
`dict.get` default `"Unknown error"`. -/
theorem cex_c4_unknown_error_message :
    handleResponseError
        { status := 401, jsonBody := some [], text := "\x7b\x7d", headers := [] }
      = Raised.api
          { kind := ErrKind.authentication, message := "Unknown error"
            status_code := some 401, retry_after := none, request_id := none }
    ∧ claimC4Message
        { status := 401, jsonBody := some [], text := "\x7b\x7d", headers := [] }
      = "\x7b\x7d"
    ∧ ("Unknown error" : String) ≠ "\x7b\x7d" := by
  refine ⟨rfl, rfl, ?_⟩
  decide

theorem claimC4AmendedMessage_eq (fields : List (String × String)) :
    dictGetD fields "error" (dictGetD fields "message" "Unknown error")
      = claimC4AmendedMessage fields := by
  unfold dictGetD claimC4AmendedMessage
  rcases dictGet fields "error" with _ | m
  · rcases dictGet fields "message" with _ | m2 <;> simp [Option.getD]
  · simp [Option.getD]

/-- C4 amended: for every non-success response whose body decodes to a JSON
object (and, when the status is 429, whose `retry-after` header parses the
way `int(...)` would without raising), `_handle_response_error` raises the
error class given by the claimed status mapping, carrying the status code,
the `x-request-id` header when present, the parsed retry-after on 429, and
the message `error`-field, else `message`-field, else `"Unknown error"` —
not the raw-body/`"HTTP <code> error"` chain of the original claim, which
the code only reaches (and then abandons with an `UnboundLocalError`) when
the body is not JSON. -/
theorem thm_c4_classification_amended (r : Response)
    (fields : List (String × String)) (ra : Option Int)
    (hbody : r.jsonBody = some fields)
    (hns : r.is_success = false)
    (hra : r.status = 429 →
      parseRetryAfterHeader (dictGet r.headers "retry-after") = Except.ok ra) :
    handleResponseError r = Raised.api
      { kind := claimC4Kind r.status
        message := claimC4AmendedMessage fields
        status_code := some (r.status : Int)
        retry_after := if r.status = 429 then ra else none
        request_id := dictGet r.headers "x-request-id" } := by
  unfold handleResponseError claimC4Kind
  rw [hbody]
  dsimp only
  rw [claimC4AmendedMessage_eq]
  by_cases h401 : r.status = 401
  · simp [h401]
  · rw [if_neg h401, if_neg h401]
    by_cases h402 : r.status = 402
    · simp [h402]
    · rw [if_neg h402, if_neg h402]
      by_cases h404 : r.status = 404
      · simp [h404]
      · rw [if_neg h404, if_neg h404]
        by_cases h400 : r.status = 400
        · simp [h400]
        · rw [if_neg h400, if_neg h400]
          by_cases h429 : r.status = 429
          · rw [if_pos h429, if_pos h429, hra h429]
            simp [h429]
          · rw [if_neg h429, if_neg h429, if_neg h429]
            by_cases h5xx : 500 ≤ r.status ∧ r.status < 600
            · rw [if_pos h5xx, if_pos h5xx]
            · rw [if_neg h5xx, if_neg h5xx]

/-- Witness for C4 amended: a 503 response with a JSON `message` body and an
`x-request-id` header. -/
theorem wit_c4_classification_amended :
    respC4Wit.jsonBody = some [("message", "down")]
    ∧ respC4Wit.is_success = false
    ∧ handleResponseError respC4Wit = Raised.api
        { kind := claimC4Kind respC4Wit.status
          message := claimC4AmendedMessage [("message", "down")]
          status_code := some (respC4Wit.status : Int)
          retry_after := if respC4Wit.status = 429 then none else none
          request_id := dictGet respC4Wit.headers "x-request-id" } :=
  ⟨rfl, by decide,
    thm_c4_classification_amended respC4Wit [("message", "down")] none rfl
      (by decide) (fun h => absurd h (by decide))⟩

theorem handle_rate_limit_wait_hint (s : RateLimiter) (n : Int) (hn : n ≠ 0) :
    (s.handle_rate_limit_response (some n)).1 = (n : ℚ) := by
  unfold RateLimiter.handle_rate_limit_response
  dsimp only
  rw [if_pos]
  · rfl
  · simp [optIntTruthy, hn]

/-- C9: whenever the retry loop, on a client with a rate limiter, processes
a 429 response carrying header `retry-after: 5` with attempts remaining,
it increments `rate_limited_requests` by exactly one for that response and
sleeps exactly the wait returned by `handle_rate_limit_response`, which
equals the 5-second retry-after hint — so the next attempt is delayed by at
least 5 seconds. -/
theorem thm_c9_retry_after_hint (maxRetries attempt : ℕ) (clock : ℕ → ℚ)
    (resp : Response) (st : ExecState) (l : RateLimiter)
    (hrl : st.rl = some l) (hatt : attempt < maxRetries)
    (hstatus : resp.status = 429)
    (hheader : dictGet resp.headers "retry-after" = some "5") :
    ∃ st1, attemptBody maxRetries clock attempt (TransportResult.ok resp) st
        = AttemptOutcome.next st1
      ∧ st1.stats.rate_limited_requests = st.stats.rate_limited_requests + 1
      ∧ st1.backoffSleeps = st.backoffSleeps ++ [(5 : ℚ)] := by
  unfold attemptBody
  rw [hrl]
  dsimp only
  rw [hstatus, hheader]
  have hparse : parseRetryAfterHeader (some "5") = Except.ok (some 5) := by decide
  rw [hparse]
  dsimp only
  rw [if_pos rfl, handle_rate_limit_wait_hint _ 5 (by decide), if_pos hatt]
  exact ⟨_, rfl, rfl, by norm_num⟩

/-- Witness for C9: first attempt of a `maxRetries = 2` run, default
limiter, against the fixture 429 response with `retry-after: 5`. -/
theorem wit_c9_retry_after_hint :
    (ExecState.init (some rlDefault)).rl = some rlDefault
    ∧ 0 < 2
    ∧ resp429five.status = 429
    ∧ dictGet resp429five.headers "retry-after" = some "5"
    ∧ ∃ st1, attemptBody 2 clockZero 0 (TransportResult.ok resp429five)
          (ExecState.init (some rlDefault))
        = AttemptOutcome.next st1
      ∧ st1.stats.rate_limited_requests
          = (ExecState.init (some rlDefault)).stats.rate_limited_requests + 1
      ∧ st1.backoffSleeps
          = (ExecState.init (some rlDefault)).backoffSleeps ++ [(5 : ℚ)] :=
  ⟨rfl, by decide, rfl, by decide,
    thm_c9_retry_after_hint 2 0 clockZero resp429five
      (ExecState.init (some rlDefault)) rlDefault rfl (by decide) rfl (by decide)⟩

/-- C1 (code bug): a full `_make_request_with_retries` run with
`max_retries = 2` (so `maxAttempts = 3`), the default rate limiter and a
transport that always returns the 500 fixture.  The run performs exactly 3
attempts and sleeps `min(60, 2^attempt) = 1, 2` seconds of backoff — but
the final error is NOT a `ServerError`: the `ServerError` raised by
`_handle_response_error` on the last attempt is swallowed by the
`except Exception` arm and re-raised as the base
`ThrivingAPIError("Unexpected error: ...")` with `status_code = None`. -/
theorem thm_c1_always500_wrapped_not_server :
    (makeRequestWithRetries 2 (some rlDefault) clockZero
        (fun _ => TransportResult.ok resp500boom)).outcome
      = Except.error (RunError.unexpected (Raised.api
          { kind := ErrKind.server, message := "boom", status_code := some 500
            retry_after := none, request_id := none }))
    ∧ (makeRequestWithRetries 2 (some rlDefault) clockZero
        (fun _ => TransportResult.ok resp500boom)).final.stats.total_requests = 3
    ∧ (makeRequestWithRetries 2 (some rlDefault) clockZero
        (fun _ => TransportResult.ok resp500boom)).final.stats.retried_requests = 2
    ∧ (makeRequestWithRetries 2 (some rlDefault) clockZero
        (fun _ => TransportResult.ok resp500boom)).final.stats.failed_requests = 1
    ∧ (makeRequestWithRetries 2 (some rlDefault) clockZero
        (fun _ => TransportResult.ok resp500boom)).final.backoffSleeps = [1, 2]
    ∧ (makeRequestWithRetries 2 (some rlDefault) clockZero
        (fun _ => TransportResult.ok resp500boom)).final.acquireSleeps = [] := by
  norm_num [makeRequestWithRetries, runLoop, attemptBody, dispatchRaised,
    exceptGeneric, noRetryClass, handleResponseError, parseRetryAfterHeader,
    dictGet, dictGetD, ExecState.init, Stats.init, rlDefault, clockZero,
    resp500boom, RateLimiter.init, RateLimiter.acquire,
    RateLimiter.update_from_response, RateLimiter.reset_rate_limit_tracking,
    RateLimiter.handle_rate_limit_response, TokenBucket.init,
    TokenBucket.consume, TokenBucket.wait_time, pyMin, pyMax, optIntTruthy,
    Response.is_success, List.range_succ, List.filter]

/-- C2 (code bug): the same run against a transport that always returns the
404 fixture.  The claim says a 404 is classified and raised immediately with
no further attempts; in fact the `NotFoundError` raised by
`_handle_response_error` is caught by the `except Exception` arm, so the
run performs all 3 attempts with backoff sleeps 1, 2 and finally raises the
wrapped base `ThrivingAPIError`, not the `NotFoundError`. -/
theorem thm_c2_404_retried_not_immediate :
    (makeRequestWithRetries 2 (some rlDefault) clockZero
        (fun _ => TransportResult.ok resp404missing)).outcome
      = Except.error (RunError.unexpected (Raised.api
          { kind := ErrKind.notFound, message := "missing", status_code := some 404
            retry_after := none, request_id := none }))
    ∧ (makeRequestWithRetries 2 (some rlDefault) clockZero
        (fun _ => TransportResult.ok resp404missing)).final.stats.total_requests = 3
    ∧ (makeRequestWithRetries 2 (some rlDefault) clockZero
        (fun _ => TransportResult.ok resp404missing)).final.stats.failed_requests = 1
    ∧ (makeRequestWithRetries 2 (some rlDefault) clockZero
        (fun _ => TransportResult.ok resp404missing)).final.backoffSleeps = [1, 2] := by
  norm_num [makeRequestWithRetries, runLoop, attemptBody, dispatchRaised,
    exceptGeneric, noRetryClass, handleResponseError, parseRetryAfterHeader,
    dictGet, dictGetD, ExecState.init, Stats.init, rlDefault, clockZero,
    resp404missing, RateLimiter.init, RateLimiter.acquire,
    RateLimiter.update_from_response, RateLimiter.reset_rate_limit_tracking,
    RateLimiter.handle_rate_limit_response, TokenBucket.init,
    TokenBucket.consume, TokenBucket.wait_time, pyMin, pyMax, optIntTruthy,
    Response.is_success, List.range_succ, List.filter]

/-- C3 (code bug): the same run against a transport that always returns a
401 whose body is not JSON.  The claim says a 401 always yields exactly one
attempt and an immediate `AuthenticationError`; in fact
`_handle_response_error` crashes with `UnboundLocalError` (its `raise`
references `error_data`, unassigned when `response.json()` failed), the
crash is wrapped by the `except Exception` arm and retried, so the run
performs 3 attempts and ends with the wrapped generic error, never raising
`AuthenticationError`. -/
theorem thm_c3_401_nonjson_retried_crash :
    (makeRequestWithRetries 2 (some rlDefault) clockZero
        (fun _ => TransportResult.ok resp401raw)).outcome
      = Except.error (RunError.unexpected Raised.unboundLocal)
    ∧ (makeRequestWithRetries 2 (some rlDefault) clockZero
        (fun _ => TransportResult.ok resp401raw)).final.stats.total_requests = 3
    ∧ (makeRequestWithRetries 2 (some rlDefault) clockZero
        (fun _ => TransportResult.ok resp401raw)).final.stats.failed_requests = 1
    ∧ (makeRequestWithRetries 2 (some rlDefault) clockZero
        (fun _ => TransportResult.ok resp401raw)).final.backoffSleeps = [1, 2] := by
  norm_num [makeRequestWithRetries, runLoop, attemptBody, dispatchRaised,
    exceptGeneric, noRetryClass, handleResponseError, parseRetryAfterHeader,
    dictGet, dictGetD, ExecState.init, Stats.init, rlDefault, clockZero,
    resp401raw, RateLimiter.init, RateLimiter.acquire,
    RateLimiter.update_from_response, RateLimiter.reset_rate_limit_tracking,
    RateLimiter.handle_rate_limit_response, TokenBucket.init,
    TokenBucket.consume, TokenBucket.wait_time, pyMin, pyMax, optIntTruthy,
    Response.is_success, List.range_succ, List.filter]
